import Mathlib

/-!
# Verification of the oio-swift S3 middleware against its specification

A shallow embedding of the parts of the `oio-swift` repository that the
claims concern:

* `MultiObjectDeleteController.POST` and its inner `do_delete`
  (`src/oioswift/common/middleware/s3api/controllers/multi_delete.py`);
* `ObjectController.DELETE`
  (`src/oioswift/common/middleware/s3api/controllers/obj.py`);
* the multipart-upload controller (Initiate / UploadPart / UploadPartCopy /
  ListParts / ListUploads / Complete / Abort).  That controller's module
  (`multi_upload.py`) is not part of the source tree here (only its unit
  tests are), so its operations are modelled from the specification's
  description of the multipart state machine; every such definition carries
  a doc comment starting with `Modelled from the spec:`.

Machine integers do not occur: all sizes and counters are `Nat`.
The external MD5 function (Python's `hashlib.md5`) is kept abstract as a
function parameter `md5hex : List Nat → String` from byte sequences to hex
digests; the composite-ETag computation around it is concrete.
-/

set_option autoImplicit false

namespace OioSwift

/-- Error kinds of the S3 translation layer (spec section 7). -/
inductive S3Err where
  | noSuchBucket
  | noSuchUpload
  | noSuchKey
  | invalidRequest (msg : String)
  | invalidArgument (name : String)
  | invalidPart
  | invalidPartOrder
  | entityTooSmall (msg : String)
  | preconditionFailed
  | invalidRange (msg : String)
  deriving Repr, DecidableEq

/-- A record of one backend (underlying store) call, used to state
"before any backend call" / "no write to the destination" properties. -/
inductive BackendCall where
  | headBucket
  | headMarker (name : String)
  | headSource (container obj : String)
  | listing (container : String) (pfx marker : String) (limit : Nat)
  | putManifest (obj : String)
  | putPart (name : String)
  | deleteObj (name : String) (ok : Bool)
  | containerInfo
  deriving Repr, DecidableEq

/-! ## Delete Multiple Objects (`multi_delete.py`, in src/) -/

/-- Outcome of the backend `DELETE` issued for one key by `do_delete`
(`multi_delete.py:113-136`): a plain success, an SLO bulk-delete response
(with its status line and per-object error list), an unparseable SLO
response body, a `NoSuchKey` error response, or some other `ErrorResponse`. -/
inductive DeleteBackendResult where
  | ok
  | sloResult (status : String) (errs : List (String × String))
  | sloUnparseable
  | noSuchKey
  | errorResponse (code msg : String)
  deriving Repr, DecidableEq

/-- The error dictionary `do_delete` returns for a failed key. -/
structure DeleteErr where
  code : String
  message : String
  deriving Repr, DecidableEq

/-- `do_delete` (`multi_delete.py:108-137`): returns `(key, None)` on
success, on an SLO response with an empty `Errors` list, and on
`NoSuchKey` (which is silently passed over); returns an error dictionary
for SLO partial failures, unparseable SLO responses, and other
`ErrorResponse`s. -/
def do_delete (key : String) (r : DeleteBackendResult) : String × Option DeleteErr :=
  match r with
  | .ok => (key, none)
  | .sloResult status errs =>
    if errs.isEmpty then (key, none)
    else (key, some ⟨"SLODeleteError",
      String.intercalate "\n" (status :: errs.map (fun p => p.1 ++ ": " ++ p.2))⟩)
  | .sloUnparseable => (key, some ⟨"SLODeleteError", "Unexpected swift response"⟩)
  | .noSuchKey => (key, none)
  | .errorResponse code msg => (key, some ⟨code, msg⟩)

/-- One entry of the `DeleteResult` XML document. -/
inductive ResultEntry where
  | deleted (key : String)
  | error (key code msg : String)
  deriving Repr, DecidableEq

/-- The body of the result-collection loop (`multi_delete.py:142-149`):
an error dictionary yields an `Error` element; a `None` error yields a
`Deleted` element unless quiet mode is on. -/
def collectEntry (quiet : Bool) : String × Option DeleteErr → List ResultEntry
  | (key, some e) => [.error key e.code e.message]
  | (key, none) => if quiet then [] else [.deleted key]

/-- Modelled from the spec: `swift.common.utils.StreamingPile.asyncstarmap`
is an external dependency (not under src/).  It runs the tasks in a bounded
worker pool and yields results as workers finish; its own documentation
states that results will not necessarily have the same order as inputs.
We model the yield order by an explicit schedule `perm`: the list of input
indices in the order their results are yielded (for a full run, a
permutation of `0 .. n-1`; the identity schedule `List.range n` is the
case where completions are yielded in spawn order). -/
def pileYield {α : Type} (perm : List Nat) (results : List α) : List α :=
  perm.filterMap (fun i => results[i]?)

/-- `MultiObjectDeleteController.POST`, result-collection phase
(`multi_delete.py:139-151`): each key of the request body is deleted via
`do_delete` through the worker pile, and the `DeleteResult` entries are
appended in the order the pile yields results. -/
def multiObjectDeletePOST (quiet : Bool) (perm : List Nat)
    (backend : String → DeleteBackendResult) (keys : List String) : List ResultEntry :=
  (pileYield perm (keys.map (fun k => do_delete k (backend k)))).flatMap (collectEntry quiet)

/-! ## Multipart-upload state machine (spec sections 3, 4.3, 4.4, 4.5)

The controller module `multi_upload.py` is not under src/ (only its unit
tests are), so the operations below are modelled from the specification. -/

/-- A stored object of the segments container, with the listing fields of
the underlying store (`{name, hash, bytes, last_modified}`). -/
structure SegInfo where
  name : String
  hash : String
  bytes : Nat
  lastModified : String
  deriving Repr, DecidableEq

/-- One `Part` element of a Complete request body: the claimed part number
and the claimed ETag (possibly surrounded by double quotes). -/
structure PartReq where
  partNumber : Nat
  etag : String
  deriving Repr, DecidableEq

/-- Modelled from the spec: the observable state of one upload (spec
section 3): the marker object (presence means the upload is active), the
part objects keyed by part number, and the destination key's manifest. -/
structure MpuState where
  marker : Option SegInfo
  parts : List (Nat × SegInfo)
  manifest : Option (List SegInfo × String)
  deriving Repr, DecidableEq

/-- The double-quote character. -/
def quoteChar : Char := Char.ofNat 34

/-- Strip leading and trailing double quotes from a client-claimed ETag. -/
def stripQuotes (s : String) : String :=
  String.mk (((s.toList.dropWhile (fun c => c = quoteChar)).reverse.dropWhile
    (fun c => c = quoteChar)).reverse)

/-- Value of one hexadecimal digit. -/
def hexVal (c : Char) : Nat :=
  if c.isDigit then c.toNat - '0'.toNat
  else if 'a' ≤ c ∧ c ≤ 'f' then c.toNat - 'a'.toNat + 10
  else if 'A' ≤ c ∧ c ≤ 'F' then c.toNat - 'A'.toNat + 10
  else 0

/-- Binary-decode a hex string two characters at a time, as Python's
`binascii.a2b_hex` does. -/
def hexPairs : List Char → List Nat
  | a :: b :: rest => (16 * hexVal a + hexVal b) :: hexPairs rest
  | _ => []

/-- Binary-decode a hex string into its byte values. -/
def hexDecode (s : String) : List Nat := hexPairs s.toList

/-- Modelled from the spec: the composite multipart ETag (spec section 3):
the hex digest of the concatenation of each part's raw (binary-decoded)
hash bytes, followed by a literal `-<partCount>` suffix.  `md5hex` is the
external MD5 hex-digest function, kept abstract. -/
def s3Etag (md5hex : List Nat → String) (hashes : List String) : String :=
  md5hex ((hashes.map hexDecode).flatten) ++ "-" ++ toString hashes.length

/-- Look up the stored part object of a part number. -/
def lookupPart (n : Nat) : List (Nat × SegInfo) → Option SegInfo
  | [] => none
  | (m, s) :: rest => if m = n then some s else lookupPart n rest

/-- Insert or overwrite the part object of a part number. -/
def upsertPart (n : Nat) (s : SegInfo) : List (Nat × SegInfo) → List (Nat × SegInfo)
  | [] => [(n, s)]
  | (m, t) :: rest => if m = n then (n, s) :: rest else (m, t) :: upsertPart n s rest

/-- Modelled from the spec: Complete steps 3 and 4 (spec section 4.3):
locate each claimed part among the stored part objects (`InvalidPart` when
one is missing) and compare the client-claimed ETag against the stored
hash (`InvalidPart` on mismatch); on success return the stored parts in
the order the client listed them. -/
def resolveParts (stored : List (Nat × SegInfo)) : List PartReq → Except S3Err (List SegInfo)
  | [] => .ok []
  | p :: rest =>
    match lookupPart p.partNumber stored with
    | none => .error .invalidPart
    | some seg =>
      if stripQuotes p.etag = seg.hash then
        match resolveParts stored rest with
        | .error e => .error e
        | .ok segs => .ok (seg :: segs)
      else .error .invalidPart

/-- Modelled from the spec: Complete step 2 (spec section 4.3): the client
part list must be in strictly ascending part-number order. -/
def ascendingPartNums : List PartReq → Bool
  | [] => true
  | [_] => true
  | a :: b :: rest => if a.partNumber < b.partNumber
      then ascendingPartNums (b :: rest) else false

/-- Modelled from the spec: Complete step 5 (spec section 4.3): every part
except the last must meet the minimum segment size. -/
def nonFinalSizesOk (minSize : Nat) : List SegInfo → Bool
  | [] => true
  | [_] => true
  | s :: rest => if minSize ≤ s.bytes then nonFinalSizesOk minSize rest else false

/-- Modelled from the spec: `Complete(uploadId, clientPartList)` (spec
section 4.3, steps 1-7; `multi_upload.py` is not under src/).  The upload's
marker is validated first (`NoSuchUpload` when absent, the marker HEAD
being the recorded backend call); an empty client part list — the parse of
a missing or empty body — is rejected with `InvalidRequest`; the part list
is validated against the stored part objects; the manifest is written to
the destination key; finally the marker and the superseded part objects are
deleted best-effort: `d` gives each deletion's backend outcome, recorded in
the call trace but never surfaced (step 7: cleanup failures are swallowed).
Returns the outcome, the resulting state, and the backend call trace. -/
def completeUpload (md5hex : List Nat → String) (minSize : Nat)
    (tooSmallMsg destObj : String) (d : String → Bool) (st : MpuState)
    (ps : List PartReq) : Except S3Err String × MpuState × List BackendCall :=
  match st.marker with
  | none => (.error .noSuchUpload, st, [])
  | some mi =>
    if ps.isEmpty then
      (.error (.invalidRequest "You must specify at least one part"), st,
       [.headMarker mi.name])
    else if ascendingPartNums ps = false then
      (.error .invalidPartOrder, st, [.headMarker mi.name])
    else
      match resolveParts st.parts ps with
      | .error e => (.error e, st, [.headMarker mi.name])
      | .ok segs =>
        if nonFinalSizesOk minSize segs = false then
          (.error (.entityTooSmall tooSmallMsg), st,
           [.headMarker mi.name, .putManifest destObj])
        else
          let etag := s3Etag md5hex (segs.map (fun s => s.hash))
          (.ok etag,
           { marker := none, parts := [], manifest := some (segs, etag) },
           [.headMarker mi.name, .putManifest destObj,
            .deleteObj mi.name (d mi.name)] ++
             st.parts.map (fun p => .deleteObj p.2.name (d p.2.name)))

/-- Modelled from the spec: `Abort(uploadId)` (spec section 4.3): deletes
the marker and all part objects; a non-existent uploadId (no marker) yields
`NoSuchUpload`; per-object deletion outcomes `d` (404s on individual parts)
are absorbed and never affect the result. -/
def abortUpload (markerName : String) (d : String → Bool) (st : MpuState) :
    Except S3Err Unit × MpuState × List BackendCall :=
  match st.marker with
  | none => (.error .noSuchUpload, st, [.headMarker markerName])
  | some mi =>
    (.ok (), { marker := none, parts := [], manifest := st.manifest },
     [.headMarker markerName, .deleteObj mi.name (d mi.name)] ++
       st.parts.map (fun p => .deleteObj p.2.name (d p.2.name)))

/-- Metadata of the copy source object, as read by the initial HEAD. -/
structure ObjMeta where
  etag : String
  lastModified : Nat
  contentLength : Nat
  deriving Repr, DecidableEq

/-- The conditional-copy headers of an UploadPartCopy request. -/
structure CopyConds where
  ifMatch : Option String
  ifNoneMatch : Option String
  ifModifiedSince : Option Nat
  ifUnmodifiedSince : Option Nat
  deriving Repr, DecidableEq

/-- Modelled from the spec: evaluation of the conditional-copy headers
against the source object's metadata (spec section 4.3, UploadPartCopy):
`If-Match` fails on an ETag mismatch, `If-None-Match` on a match,
`If-Modified-Since` when the source was not modified after the given time,
`If-Unmodified-Since` when it was. -/
def condFails (c : CopyConds) (m : ObjMeta) : Bool :=
  (match c.ifMatch with
   | some e => if e = m.etag then false else true
   | none => false) ||
  (match c.ifNoneMatch with
   | some e => if e = m.etag then true else false
   | none => false) ||
  (match c.ifModifiedSince with
   | some t => if m.lastModified ≤ t then true else false
   | none => false) ||
  (match c.ifUnmodifiedSince with
   | some t => if t < m.lastModified then true else false
   | none => false)

/-- Modelled from the spec: the requested byte range is invalid when its
start lies at or beyond the source's content length (spec section 4.3:
"validates requested byte range against source length"). -/
def rangeFails (range : Option (Nat × Option Nat)) (len : Nat) : Bool :=
  match range with
  | none => false
  | some (s, _) => if len ≤ s then true else false

/-- Modelled from the spec: `UploadPartCopy` (spec section 4.3;
`multi_upload.py` is not under src/).  Validates the uploadId against the
marker, reads the source object's metadata first, evaluates the
conditional-copy headers — failing with `PreconditionFailed` before
touching the destination — then validates the byte range, and only then
writes the destination part object (`copied` being the stored result of
the backend copy). -/
def uploadPartCopy (markerName : String) (st : MpuState) (src : Option ObjMeta)
    (conds : CopyConds) (range : Option (Nat × Option Nat)) (partNumber : Nat)
    (copied : SegInfo) (srcContainer srcObj : String) :
    Except S3Err SegInfo × MpuState × List BackendCall :=
  match st.marker with
  | none => (.error .noSuchUpload, st, [.headMarker markerName])
  | some _ =>
    match src with
    | none => (.error .noSuchKey, st,
        [.headMarker markerName, .headSource srcContainer srcObj])
    | some meta =>
      if condFails conds meta then
        (.error .preconditionFailed, st,
         [.headMarker markerName, .headSource srcContainer srcObj])
      else if rangeFails range meta.contentLength then
        (.error (.invalidRange
           ("Range specified is not valid for source object of size: " ++
             toString meta.contentLength)), st,
         [.headMarker markerName, .headSource srcContainer srcObj])
      else
        (.ok copied, { st with parts := upsertPart partNumber copied st.parts },
         [.headMarker markerName, .headSource srcContainer srcObj,
          .putPart copied.name])

/-! ## Listing and pagination (spec sections 4.4, 4.5) -/

/-- The fixed 32-bit-signed-integer bound `MAX_32BIT_INT` of `request.py`
(imported by the unit tests; the module itself is not under src/). -/
def MAX_32BIT_INT : Nat := 2147483647

/-- Modelled from the spec: the numeric overflow guard of `request.py`
(spec section 4.4): a client-supplied numeric parameter exceeding the
32-bit-signed-integer bound is rejected with `InvalidArgument`. -/
def validateNumParam (name : String) (v : Nat) : Except S3Err Nat :=
  if MAX_32BIT_INT < v then .error (.invalidArgument name) else .ok v

/-- Character-list prefix test (written out to stay executable). -/
def strStarts : List Char → List Char → Bool
  | [], _ => true
  | _ :: _, [] => false
  | a :: as, b :: bs => if a = b then strStarts as bs else false

/-- Strict lexicographic order on character lists, the order the
underlying store lists object names in. -/
def chLt : List Char → List Char → Bool
  | [], [] => false
  | [], _ :: _ => true
  | _ :: _, [] => false
  | a :: as, b :: bs => if a = b then chLt as bs else if a < b then true else false

/-- Modelled from the spec: `listSegments` (spec section 4.2, an interface
of the Segment Store Accessor): the underlying store's listing, filtered
by prefix, strictly after the marker, and cut at `limit` items; the input
list is the store's lexicographically ordered listing. -/
def backendList (segs : List SegInfo) (pfx marker : String) (limit : Nat) :
    List SegInfo :=
  (segs.filter (fun s =>
    strStarts pfx.toList s.name.toList && chLt marker.toList s.name.toList)).take
    limit

/-- Part number of a segment name under the `key/uploadId/` prefix:
the numeric suffix after the prefix, when there is one. -/
def partSuffixNum (pfx name : String) : Option Nat :=
  if strStarts pfx.toList name.toList then
    (String.mk (name.toList.drop pfx.toList.length)).toNat?
  else none

/-- A segment name is an upload marker when its last path component is
not numeric (spec section 4.3, ListUploads). -/
def isUploadMarker (name : String) : Bool :=
  match (name.splitOn "/").getLast? with
  | some s => !s.toNat?.isSome
  | none => false

/-- The result of ListParts. -/
structure ListPartsResult where
  parts : List (Nat × SegInfo)
  isTruncated : Bool
  nextPartNumberMarker : Option Nat
  deriving Repr, DecidableEq

/-- Modelled from the spec: `ListParts(uploadId, partNumberMarker,
maxParts)` (spec sections 4.3 and 4.5; `multi_upload.py` is not under
src/).  The numeric parameters are validated first — `InvalidArgument`
before any backend call — then a single backend listing is issued with
limit one more than the page size, segment names are filtered to numeric
part-number suffixes, the marker and page size are applied, and the
truncation flag and next marker are derived from the extra item. -/
def listPartsOp (segs : List SegInfo) (upPfx : String)
    (maxParts pnMarker : Nat) :
    Except S3Err ListPartsResult × List BackendCall :=
  match validateNumParam "max-parts" maxParts with
  | .error e => (.error e, [])
  | .ok mp =>
    match validateNumParam "part-number-marker" pnMarker with
    | .error e => (.error e, [])
    | .ok pm =>
      let fetched := backendList segs upPfx "" (mp + 1)
      let nums := fetched.filterMap
        (fun s => (partSuffixNum upPfx s.name).map (fun n => (n, s)))
      let after := nums.filter (fun p => pm < p.1)
      let page := after.take mp
      let trunc := mp < after.length
      (.ok ⟨page, trunc,
        if trunc then (page.map (fun p => p.1)).getLast? else none⟩,
       [.listing "segments" upPfx "" (mp + 1)])

/-- Modelled from the spec: `ListUploads(prefix, keyMarker, maxUploads)`
(spec sections 4.3 and 4.5; `multi_upload.py` is not under src/).
`max-uploads` is validated first — `InvalidArgument` before any backend
call — then a single backend listing is issued with limit one more than
the page size; marker objects (names with no numeric part suffix) form the
page and the extra item decides truncation. -/
def listUploadsOp (objs : List SegInfo) (pfx keyMarker : String)
    (maxUploads : Nat) :
    Except S3Err (List SegInfo × Bool) × List BackendCall :=
  match validateNumParam "max-uploads" maxUploads with
  | .error e => (.error e, [])
  | .ok mu =>
    let fetched := backendList objs pfx keyMarker (mu + 1)
    let markers := fetched.filter (fun s => isUploadMarker s.name)
    (.ok (markers.take mu, mu < markers.length),
     [.listing "segments" pfx keyMarker (mu + 1)])

/-! ## DELETE Object (`obj.py`, in src/) -/

/-- The backend facts a single-object DELETE request runs against. -/
structure DeleteCtx where
  bucketExists : Bool
  objectExists : Bool
  isSlo : Bool
  historyMode : Bool
  deriving Repr, DecidableEq

/-- Modelled from the spec: `gen_multipart_manifest_delete_query` lives in
`request.py`, which is not under src/.  It HEADs the object — raising
`NoSuchKey` when the object (or its bucket) is absent — and returns the
`multipart-manifest=delete` query exactly when the object is a large-object
manifest. -/
def genMpuDeleteQuery (ctx : DeleteCtx) : Except S3Err Bool :=
  if ctx.objectExists then .ok ctx.isSlo else .error .noSuchKey

/-- Modelled from the spec: `get_container_info` of `request.py` (not under
src/), which per the call-site comment at `obj.py:217` raises
`NoSuchBucket` when the bucket does not exist; on success it carries the
container's versioning mode. -/
def getContainerInfo (ctx : DeleteCtx) : Except S3Err Bool :=
  if ctx.bucketExists then .ok ctx.historyMode else .error .noSuchBucket

/-- The backend object DELETE (`req.get_response` at `obj.py:207/209`):
`NoSuchKey` when the object is absent; the bulk deleter answers 200 when
the manifest-delete query is attached, a plain delete answers 204. -/
def backendDelete (ctx : DeleteCtx) (withQuery : Bool) : Except S3Err Nat :=
  if ctx.objectExists then .ok (if withQuery then 200 else 204)
  else .error .noSuchKey

/-- Modelled from the spec: `_delete_version` (`obj.py:167-189`; its
helpers live in `request.py`, not under src/): deletes the requested
version and answers 204, `NoSuchKey` when it is absent. -/
def deleteVersion (ctx : DeleteCtx) : Except S3Err Nat :=
  if ctx.objectExists then .ok 204 else .error .noSuchKey

/-- The body of the `try` block of `ObjectController.DELETE`
(`obj.py:196-215`): generate the manifest-delete query, dispatch on
`versionId`, skip the query when the container is in `history` versioning
mode, and turn a drained 200 bulk-delete answer into 204. -/
def deleteBody (ctx : DeleteCtx) (versionId : Option String) : Except S3Err Nat := do
  let query ← genMpuDeleteQuery ctx
  match versionId with
  | some _ => deleteVersion ctx
  | none => do
    let history ← getContainerInfo ctx
    let status ← if history then backendDelete ctx false else backendDelete ctx query
    pure (if query ∧ status = 200 then 204 else status)

/-- `ObjectController.DELETE` (`obj.py:191-220`): the body wrapped in the
`except NoSuchKey` handler, which checks the bucket via
`get_container_info` (propagating `NoSuchBucket`) and answers
`HTTPNoContent` (204) when the bucket exists. -/
def objectDELETE (ctx : DeleteCtx) (versionId : Option String) : Except S3Err Nat :=
  match deleteBody ctx versionId with
  | .error .noSuchKey =>
    match getContainerInfo ctx with
    | .error e => .error e
    | .ok _ => .ok 204
  | r => r

theorem range_filterMap_getElem {α : Type} (l : List α) :
    (List.range l.length).filterMap (fun i => l[i]?) = l := by
  induction l with
  | nil => rfl
  | cons a t ih =>
    rw [List.length_cons, List.range_succ_eq_map, List.filterMap_cons]
    simp only [List.getElem?_cons_zero, List.filterMap_map, Function.comp_def,
      List.getElem?_cons_succ]
    rw [ih]

theorem flatMap_map_eq {α β γ : Type} (g : α → β) (f : β → List γ) (l : List α) :
    (l.map g).flatMap f = l.flatMap (fun a => f (g a)) := by
  induction l with
  | nil => rfl
  | cons a t ih => simp [List.flatMap, Function.comp_def, ih]

/-- The stored parts returned by `resolveParts` carry, in client order,
exactly the hashes the client claimed (quotes stripped), and there are as
many of them as client entries. -/
theorem resolveParts_spec (stored : List (Nat × SegInfo)) :
    ∀ (ps : List PartReq) (segs : List SegInfo),
      resolveParts stored ps = .ok segs →
      segs.map (fun s => s.hash) = ps.map (fun p => stripQuotes p.etag) ∧
        segs.length = ps.length := by
  intro ps
  induction ps with
  | nil =>
    intro segs h
    simp only [resolveParts] at h
    cases h
    exact ⟨rfl, rfl⟩
  | cons p rest ih =>
    intro segs h
    simp only [resolveParts] at h
    split at h
    · cases h
    next seg hl =>
      split at h
      next he =>
        split at h
        · cases h
        next segs2 hr =>
          cases h
          obtain ⟨h1, h2⟩ := ih segs2 hr
          simp [h1, h2, he]
      next he => cases h

/-- C2 counterexample: with two keys and a completion schedule that yields
the second delete first (admissible for the pool as soon as its concurrency
is at least 2), the `DeleteResult` entries do not follow the request
order. -/
theorem multi_delete_order_counterexample :
    multiObjectDeletePOST false [1, 0] (fun _ => .ok) ["a", "b"] ≠
      [ResultEntry.deleted "a", ResultEntry.deleted "b"] := by decide

/-- C2 (amended): the `DeleteResult` entries appear in the order the worker
pile yields completed deletions; in particular, when results are yielded in
spawn order (the identity schedule), the document follows the input order,
one group of entries per requested key. -/
theorem multi_delete_input_order_when_completions_in_order
    (quiet : Bool) (backend : String → DeleteBackendResult) (keys : List String) :
    multiObjectDeletePOST quiet (List.range keys.length) backend keys =
      keys.flatMap (fun k => collectEntry quiet (do_delete k (backend k))) := by
  unfold multiObjectDeletePOST pileYield
  rw [← List.length_map keys (fun k => do_delete k (backend k)),
    range_filterMap_getElem, flatMap_map_eq]

/-- C9: a key whose backend deletion reports `NoSuchKey` is treated as
successfully deleted by `do_delete`: it yields a `Deleted` entry in the
result document (no entry in quiet mode) and never an `Error` entry. -/
theorem multi_delete_nosuchkey_is_deleted (key : String) :
    do_delete key .noSuchKey = (key, none) ∧
      collectEntry false (do_delete key .noSuchKey) = [.deleted key] ∧
      collectEntry true (do_delete key .noSuchKey) = [] :=
  ⟨rfl, rfl, rfl⟩

/-- C10: a DELETE Object request without a versionId on a missing key
answers 204 No Content when the containing bucket exists, and the bucket
check of the `NoSuchKey` handler raises `NoSuchBucket` when it does not. -/
theorem object_delete_missing_key (ctx : DeleteCtx)
    (hobj : ctx.objectExists = false) :
    objectDELETE ctx none =
      (if ctx.bucketExists then .ok 204 else .error .noSuchBucket) := by
  cases hb : ctx.bucketExists <;>
    simp [objectDELETE, deleteBody, genMpuDeleteQuery, getContainerInfo, hobj,
      hb, Bind.bind, Except.bind]

theorem object_delete_missing_key_witness :
    objectDELETE ⟨true, false, false, false⟩ none = .ok 204 ∧
      objectDELETE ⟨false, false, false, false⟩ none = .error .noSuchBucket :=
  ⟨(object_delete_missing_key ⟨true, false, false, false⟩ rfl).trans rfl,
   (object_delete_missing_key ⟨false, false, false, false⟩ rfl).trans rfl⟩

/-- C1: when Complete succeeds, the returned ETag is the hex digest of the
concatenation of the parts' raw (binary-decoded) hashes — which are, in
client order, the client-claimed ETags with quotes stripped — followed by
the literal `-<partCount>` suffix. -/
theorem mpu_complete_etag (md5hex : List Nat → String) (minSize : Nat)
    (tooSmallMsg destObj : String) (d : String → Bool) (st : MpuState)
    (ps : List PartReq) (etag : String) (st2 : MpuState) (tr : List BackendCall)
    (h : completeUpload md5hex minSize tooSmallMsg destObj d st ps =
      (.ok etag, st2, tr)) :
    etag =
      md5hex (((ps.map (fun p => stripQuotes p.etag)).map hexDecode).flatten)
        ++ "-" ++ toString ps.length := by
  unfold completeUpload at h
  split at h
  · cases h
  next mi hm =>
    split at h
    · cases h
    next h1 =>
      split at h
      · cases h
      next h2 =>
        split at h
        · cases h
        next segs hr =>
          split at h
          · cases h
          next h3 =>
            simp only [Prod.mk.injEq, Except.ok.injEq] at h
            obtain ⟨hetag, -, -⟩ := h
            obtain ⟨hh, hlen⟩ := resolveParts_spec st.parts ps segs hr
            rw [← hetag]
            unfold s3Etag
            rw [hh, List.length_map]

theorem mpu_complete_etag_witness :
    "H-1" =
      (fun _ : List Nat => "H")
          ((([⟨1, "ab"⟩] : List PartReq).map
            (fun p => stripQuotes p.etag)).map hexDecode).flatten
        ++ "-" ++ toString ([(⟨1, "ab"⟩ : PartReq)] : List PartReq).length :=
  mpu_complete_etag (fun _ => "H") 1 "too small" "object" (fun _ => true)
    ⟨some ⟨"object/X", "HASH", 1, "t"⟩, [(1, ⟨"object/X/1", "ab", 5, "t"⟩)], none⟩
    [⟨1, "ab"⟩] "H-1"
    ⟨none, [], some ([⟨"object/X/1", "ab", 5, "t"⟩], "H-1")⟩
    [.headMarker "object/X", .putManifest "object",
     .deleteObj "object/X" true, .deleteObj "object/X/1" true]
    (by rfl)

/-- C3: a Complete on an active upload whose body contains no parts fails
with `InvalidRequest` and the message "You must specify at least one
part"; the state is untouched and no manifest write appears among the
backend calls. -/
theorem mpu_complete_empty_parts (md5hex : List Nat → String) (minSize : Nat)
    (tooSmallMsg destObj : String) (d : String → Bool) (st : MpuState)
    (mi : SegInfo) (hm : st.marker = some mi) :
    completeUpload md5hex minSize tooSmallMsg destObj d st [] =
      (.error (.invalidRequest "You must specify at least one part"), st,
       [.headMarker mi.name]) := by
  unfold completeUpload
  rw [hm]
  rfl

theorem mpu_complete_empty_parts_witness :
    completeUpload (fun _ => "H") 1 "too small" "object" (fun _ => true)
        ⟨some ⟨"object/X", "HASH", 1, "t"⟩, [], none⟩ [] =
      (.error (.invalidRequest "You must specify at least one part"),
       ⟨some ⟨"object/X", "HASH", 1, "t"⟩, [], none⟩,
       [.headMarker "object/X"]) :=
  mpu_complete_empty_parts (fun _ => "H") 1 "too small" "object"
    (fun _ => true) ⟨some ⟨"object/X", "HASH", 1, "t"⟩, [], none⟩
    ⟨"object/X", "HASH", 1, "t"⟩ rfl

/-- The outcome and the resulting state of Complete do not depend on the
outcomes of the best-effort cleanup deletions: those appear only in the
backend call trace. -/
theorem completeUpload_indep (md5hex : List Nat → String) (minSize : Nat)
    (tooSmallMsg destObj : String) (d1 d2 : String → Bool) (st : MpuState)
    (ps : List PartReq) :
    (completeUpload md5hex minSize tooSmallMsg destObj d1 st ps).1 =
        (completeUpload md5hex minSize tooSmallMsg destObj d2 st ps).1 ∧
      (completeUpload md5hex minSize tooSmallMsg destObj d1 st ps).2.1 =
        (completeUpload md5hex minSize tooSmallMsg destObj d2 st ps).2.1 := by
  unfold completeUpload
  cases st.marker with
  | none => exact ⟨rfl, rfl⟩
  | some mi =>
    by_cases h1 : ps.isEmpty = true
    · simp only [if_pos h1]; exact ⟨trivial, trivial⟩
    · simp only [if_neg h1]
      by_cases h2 : ascendingPartNums ps = false
      · simp only [if_pos h2]; exact ⟨trivial, trivial⟩
      · simp only [if_neg h2]
        cases hr : resolveParts st.parts ps with
        | error e => exact ⟨rfl, rfl⟩
        | ok segs =>
          by_cases h3 : nonFinalSizesOk minSize segs = false
          · simp only [if_pos h3]; exact ⟨trivial, trivial⟩
          · simp only [if_neg h3]; exact ⟨trivial, trivial⟩

/-- C6: once Complete has succeeded under one set of cleanup-deletion
outcomes, it returns the same success result — same composite ETag, same
final state, manifest written — under every other set of cleanup-deletion
outcomes (for example, every deletion answering 404). -/
theorem mpu_complete_cleanup_failures_swallowed (md5hex : List Nat → String)
    (minSize : Nat) (tooSmallMsg destObj : String) (d1 d2 : String → Bool)
    (st : MpuState) (ps : List PartReq) (etag : String)
    (h : (completeUpload md5hex minSize tooSmallMsg destObj d1 st ps).1 =
      .ok etag) :
    (completeUpload md5hex minSize tooSmallMsg destObj d2 st ps).1 =
        .ok etag ∧
      (completeUpload md5hex minSize tooSmallMsg destObj d2 st ps).2.1 =
        (completeUpload md5hex minSize tooSmallMsg destObj d1 st ps).2.1 := by
  obtain ⟨hi1, hi2⟩ := completeUpload_indep md5hex minSize tooSmallMsg destObj
    d1 d2 st ps
  exact ⟨hi1.symm.trans h, hi2.symm⟩

theorem mpu_complete_cleanup_failures_swallowed_witness :
    (completeUpload (fun _ => "H") 1 "too small" "object" (fun _ => false)
        ⟨some ⟨"object/X", "HASH", 1, "t"⟩,
         [(1, ⟨"object/X/1", "ab", 5, "t"⟩)], none⟩ [⟨1, "ab"⟩]).1 =
      .ok "H-1" :=
  (mpu_complete_cleanup_failures_swallowed (fun _ => "H") 1 "too small"
    "object" (fun _ => true) (fun _ => false)
    ⟨some ⟨"object/X", "HASH", 1, "t"⟩, [(1, ⟨"object/X/1", "ab", 5, "t"⟩)], none⟩
    [⟨1, "ab"⟩] "H-1" (by rfl)).1

/-- C7: Abort on an upload whose marker exists succeeds for every set of
per-object deletion outcomes (404s on individual parts are absorbed),
removing the marker and all part objects; Abort when the marker does not
exist fails with `NoSuchUpload` — hence aborting twice succeeds the first
time and yields `NoSuchUpload` the second. -/
theorem mpu_abort_idempotent (markerName : String) (d d2 : String → Bool)
    (st : MpuState) (mi : SegInfo) (hm : st.marker = some mi) :
    (abortUpload markerName d st).1 = .ok () ∧
      ((abortUpload markerName d st).2.1).marker = none ∧
      ((abortUpload markerName d st).2.1).parts = [] ∧
      (abortUpload markerName d2 (abortUpload markerName d st).2.1).1 =
        .error .noSuchUpload := by
  unfold abortUpload
  rw [hm]
  exact ⟨rfl, rfl, rfl, rfl⟩

theorem mpu_abort_idempotent_witness :
    (abortUpload "object/X" (fun _ => false)
        ⟨some ⟨"object/X", "HASH", 1, "t"⟩,
         [(1, ⟨"object/X/1", "ab", 5, "t"⟩)], none⟩).1 = .ok () ∧
      ((abortUpload "object/X" (fun _ => false)
        ⟨some ⟨"object/X", "HASH", 1, "t"⟩,
         [(1, ⟨"object/X/1", "ab", 5, "t"⟩)], none⟩).2.1).marker = none ∧
      ((abortUpload "object/X" (fun _ => false)
        ⟨some ⟨"object/X", "HASH", 1, "t"⟩,
         [(1, ⟨"object/X/1", "ab", 5, "t"⟩)], none⟩).2.1).parts = [] ∧
      (abortUpload "object/X" (fun _ => true)
        (abortUpload "object/X" (fun _ => false)
          ⟨some ⟨"object/X", "HASH", 1, "t"⟩,
           [(1, ⟨"object/X/1", "ab", 5, "t"⟩)], none⟩).2.1).1 =
        .error .noSuchUpload :=
  mpu_abort_idempotent "object/X" (fun _ => false) (fun _ => true)
    ⟨some ⟨"object/X", "HASH", 1, "t"⟩,
     [(1, ⟨"object/X/1", "ab", 5, "t"⟩)], none⟩
    ⟨"object/X", "HASH", 1, "t"⟩ rfl

/-- C4: a client-supplied `max-parts`, `part-number-marker` or
`max-uploads` exceeding the 32-bit-signed-integer bound makes the
operation fail with `InvalidArgument` with an empty backend call trace —
before any backend call, whatever the backend listing holds. -/
theorem mpu_numeric_overflow_guard :
    (∀ (segs : List SegInfo) (up : String) (mp pm : Nat), MAX_32BIT_INT < mp →
        listPartsOp segs up mp pm = (.error (.invalidArgument "max-parts"), [])) ∧
      (∀ (segs : List SegInfo) (up : String) (mp pm : Nat),
        mp ≤ MAX_32BIT_INT → MAX_32BIT_INT < pm →
        listPartsOp segs up mp pm =
          (.error (.invalidArgument "part-number-marker"), [])) ∧
      (∀ (objs : List SegInfo) (pfx km : String) (mu : Nat), MAX_32BIT_INT < mu →
        listUploadsOp objs pfx km mu =
          (.error (.invalidArgument "max-uploads"), [])) := by
  refine ⟨?_, ?_, ?_⟩
  · intro segs up mp pm h
    unfold listPartsOp validateNumParam
    rw [if_pos h]
  · intro segs up mp pm h1 h2
    unfold listPartsOp validateNumParam
    rw [if_neg (Nat.not_lt.mpr h1), if_pos h2]
  · intro objs pfx km mu h
    unfold listUploadsOp validateNumParam
    rw [if_pos h]

theorem mpu_numeric_overflow_guard_witness :
    listPartsOp [] "object/X/" 2147483648 0 =
        (.error (.invalidArgument "max-parts"), []) ∧
      listPartsOp [] "object/X/" 0 2147483648 =
        (.error (.invalidArgument "part-number-marker"), []) ∧
      listUploadsOp [] "" "" 2147483648 =
        (.error (.invalidArgument "max-uploads"), []) :=
  ⟨mpu_numeric_overflow_guard.1 [] "object/X/" 2147483648 0 (by decide),
   mpu_numeric_overflow_guard.2.1 [] "object/X/" 0 2147483648 (by decide)
     (by decide),
   mpu_numeric_overflow_guard.2.2 [] "" "" 2147483648 (by decide)⟩

/-- C8: with a valid effective page size `m`, ListParts and ListUploads
issue exactly one backend listing call, and it requests `m + 1` items, so
truncation and next-marker need no second round trip; with the default
page size 1000 the backend limit is 1001. -/
theorem mpu_listing_limit :
    (∀ (segs : List SegInfo) (up : String) (mp pm : Nat),
        mp ≤ MAX_32BIT_INT → pm ≤ MAX_32BIT_INT →
        (listPartsOp segs up mp pm).2 =
          [.listing "segments" up "" (mp + 1)]) ∧
      (∀ (objs : List SegInfo) (pfx km : String) (mu : Nat),
        mu ≤ MAX_32BIT_INT →
        (listUploadsOp objs pfx km mu).2 =
          [.listing "segments" pfx km (mu + 1)]) := by
  constructor
  · intro segs up mp pm h1 h2
    unfold listPartsOp validateNumParam
    rw [if_neg (Nat.not_lt.mpr h1), if_neg (Nat.not_lt.mpr h2)]
  · intro objs pfx km mu h
    unfold listUploadsOp validateNumParam
    rw [if_neg (Nat.not_lt.mpr h)]

theorem mpu_listing_limit_witness :
    (listPartsOp [] "object/X/" 1000 0).2 =
        [.listing "segments" "object/X/" "" 1001] ∧
      (listUploadsOp [] "" "" 1000).2 = [.listing "segments" "" "" 1001] :=
  ⟨mpu_listing_limit.1 [] "object/X/" 1000 0 (by decide) (by decide),
   mpu_listing_limit.2 [] "" "" 1000 (by decide)⟩

/-- C5: an UploadPartCopy whose conditional-copy headers fail against the
source object's metadata returns `PreconditionFailed`, the upload state is
unchanged, and the backend call trace ends with the source metadata read —
the destination part object is never written. -/
theorem mpu_upload_part_copy_precondition (markerName : String)
    (st : MpuState) (meta : ObjMeta) (conds : CopyConds)
    (range : Option (Nat × Option Nat)) (pn : Nat) (copied : SegInfo)
    (srcC srcO : String) (mi : SegInfo) (hm : st.marker = some mi)
    (hc : condFails conds meta = true) :
    uploadPartCopy markerName st (some meta) conds range pn copied srcC srcO =
      (.error .preconditionFailed, st,
       [.headMarker markerName, .headSource srcC srcO]) := by
  unfold uploadPartCopy
  rw [hm]
  simp only [if_pos hc]

theorem mpu_upload_part_copy_precondition_witness :
    uploadPartCopy "object/X"
        ⟨some ⟨"object/X", "HASH", 1, "t"⟩, [], none⟩
        (some ⟨"etagv", 10, 100⟩) ⟨some "other", none, none, none⟩ none 1
        ⟨"object/X/1", "ab", 5, "t"⟩ "src_bucket" "src_obj" =
      (.error .preconditionFailed,
       ⟨some ⟨"object/X", "HASH", 1, "t"⟩, [], none⟩,
       [.headMarker "object/X", .headSource "src_bucket" "src_obj"]) :=
  mpu_upload_part_copy_precondition "object/X"
    ⟨some ⟨"object/X", "HASH", 1, "t"⟩, [], none⟩ ⟨"etagv", 10, 100⟩
    ⟨some "other", none, none, none⟩ none 1 ⟨"object/X/1", "ab", 5, "t"⟩
    "src_bucket" "src_obj" ⟨"object/X", "HASH", 1, "t"⟩ rfl (by decide)

end OioSwift
